import Mathlib

/-!
Shallow embedding of `src/backend/inference.py` (PiCAI nnUNet Docker
inference wrapper) and proofs about the claims of its specification.

Modelling conventions:
- A voxel volume is a flat `List ℚ` of intensities (numpy float arrays are
  embedded as exact rationals).
- Filesystem paths are plain strings joined with "/"; the listing of the
  output directory tree is a `List (List String)` of file paths relative to
  the output directory, in the enumeration order the OS yields.
- Python exceptions are `Except` errors; `subprocess.run` outcomes and
  `sitk.ReadImage` results are environment parameters of the embedding.
-/

namespace PicaiInterface

/-- A loaded volume: the flat sequence of voxel intensities. -/
abbrev Volume := List ℚ

/-- A file path relative to the output directory, as its components. -/
abbrev RelPath := List String

/- ------------------------------------------------------------------
   check_docker_available (inference.py lines 20-29)

   subprocess.run(["docker", "--version"], capture_output=True, check=True)
   can: complete with an exit code (check=True raises CalledProcessError on a
   non-zero code), raise FileNotFoundError (executable missing), or raise
   another invocation error such as PermissionError (an OSError that is not
   FileNotFoundError).  The except clause catches exactly
   (CalledProcessError, FileNotFoundError).
   ------------------------------------------------------------------ -/

/-- Possible outcomes of invoking the container runtime's version query. -/
inductive QueryOutcome where
  | completed (exitCode : Int)
  | fileNotFound
  | otherError (msg : String)
deriving DecidableEq, Repr

/-- Embedding of `check_docker_available`: `.ok b` is a normal return of `b`;
`.error msg` is an exception propagating out of the function. -/
def check_docker_available : QueryOutcome → Except String Bool
  | .completed code => if code = 0 then .ok true else .ok false
  | .fileNotFound => .ok false
  | .otherError msg => .error msg

/- ------------------------------------------------------------------
   Input staging (inference.py lines 56-85)
   ------------------------------------------------------------------ -/

/-- The hardcoded case identifier (inference.py line 72). -/
def case_id : String := "case_001"

/-- Deterministic staged path for one modality:
`<output_dir>/input/images/<case_id>_<modality>.mha` (lines 57, 75-79). -/
def inputFilePath (output_dir modality : String) : String :=
  output_dir ++ "/input/images/" ++ case_id ++ "_" ++ modality ++ ".mha"

/-- The staging loop of lines 82-84: for each (modality, source path) pair in
order, read the source image and write it to the staged path.  A failing
`sitk.ReadImage` raises, aborting the loop; the returned list is the manifest
of (staged path, volume) pairs, produced only when every read succeeded. -/
def stageLoop (readImage : String → Option Volume) (output_dir : String) :
    List (String × String) → Except String (List (String × Volume))
  | [] => .ok []
  | (modality, src) :: rest =>
    match readImage src with
    | none => .error ("Unable to read image: " ++ src)
    | some img =>
      match stageLoop readImage output_dir rest with
      | .ok staged => .ok ((inputFilePath output_dir modality, img) :: staged)
      | .error e => .error e

/-- Embedding of the input-staging step: stages t2w, adc, hbv in that order
(inference.py line 82). -/
def stageInputs (readImage : String → Option Volume)
    (t2w_path adc_path hbv_path output_dir : String) :
    Except String (List (String × Volume)) :=
  stageLoop readImage output_dir
    [("t2w", t2w_path), ("adc", adc_path), ("hbv", hbv_path)]

/- ------------------------------------------------------------------
   Container execution (inference.py lines 90-118)
   ------------------------------------------------------------------ -/

/-- Behaviour of one container process: how long it runs and, if it finishes,
its exit code and captured streams. -/
structure Proc where
  duration : ℕ
  exitCode : Int
  stdout : String
  stderr : String

/-- What `subprocess.run` observes: either completion within the timeout or a
`TimeoutExpired` (in which case the child process is killed). -/
inductive ProcOutcome where
  | completed (exitCode : Int) (stdout stderr : String)
  | timedOut

/-- The hardcoded timeout passed to `subprocess.run` (line 106): 300 seconds. -/
def docker_timeout_seconds : ℕ := 300

/-- `subprocess.run(cmd, capture_output=True, text=True, timeout=t)`: raises
`TimeoutExpired` when the process runs longer than `t` seconds, otherwise
returns the completed process with captured streams. -/
def subprocessRun (timeout : ℕ) (p : Proc) : ProcOutcome :=
  if timeout < p.duration then .timedOut
  else .completed p.exitCode p.stdout p.stderr

/-- The Python exceptions that can leave the `try` body of lines 90-113. -/
inductive PyExc where
  | timeoutExpired
  | runtimeError (msg : String)

/-- `str(e)` for the exceptions above (a RuntimeError's string is its
message). -/
def excStr : PyExc → String
  | .timeoutExpired => "Command timed out"
  | .runtimeError m => m

/-- The `try` body (lines 102-113): run the container; on a non-zero exit code
raise `RuntimeError("Docker inference failed: " + stderr)` (line 111). -/
def tryBody : ProcOutcome → Except PyExc Unit
  | .timedOut => .error .timeoutExpired
  | .completed code _ err =>
    if code ≠ 0 then .error (.runtimeError ("Docker inference failed: " ++ err))
    else .ok ()

/-- The `except` clauses of lines 115-118, in order: `TimeoutExpired` is
re-raised as a timeout RuntimeError (a raise inside an except clause is not
caught by the later clause), and any other exception from the try body is
caught by `except Exception` and re-raised wrapped as
`RuntimeError("Error running Docker: " + str(e))`. -/
def handleExc : Except PyExc Unit → Except String Unit
  | .ok _ => .ok ()
  | .error .timeoutExpired => .error "Docker inference timed out after 5 minutes"
  | .error e => .error ("Error running Docker: " ++ excStr e)

/-- Embedding of the container-execution step: one `subprocess.run` with the
hardcoded 300-second timeout, wrapped by the try/except of lines 90-118. -/
def runDocker (p : Proc) : Except String Unit :=
  handleExc (tryBody (subprocessRun docker_timeout_seconds p))

/-- Trace form of the execution step: the environment offers a stream of
process behaviours and the step consumes from its front; the second component
is what remains, so the number of elements consumed is visible. -/
def runDockerWithTrace (procs : List Proc) : Except String Unit × List Proc :=
  match procs with
  | [] => (.error "Error running Docker: no process started", [])
  | p :: rest => (runDocker p, rest)

/- ------------------------------------------------------------------
   Output resolution (inference.py lines 120-127)

   `output_path.glob("*.mha")` is a NON-recursive glob: the pattern has no
   path separator, so it matches only direct children of the output directory
   whose name ends in ".mha"; likewise for "*.nii.gz".
   ------------------------------------------------------------------ -/

/-- Whether a string ends with the given extension, computed over the
underlying character lists (the semantics of Python's `str.endswith`). -/
def strEndsWith (s ext : String) : Bool :=
  ext.data.isSuffixOf s.data

/-- Whether a relative path is matched by the non-recursive glob `*<ext>` on
the output directory: it must be a direct child whose name ends in `ext`. -/
def matchesGlobExt (ext : String) : RelPath → Bool
  | [name] => strEndsWith name ext
  | _ => false

/-- Line 121: `list(output_path.glob("*.mha")) + list(output_path.glob("*.nii.gz"))`,
with `outputFiles` the OS enumeration order of the output tree. -/
def findPredictionFiles (outputFiles : List RelPath) : List RelPath :=
  outputFiles.filter (matchesGlobExt ".mha")
    ++ outputFiles.filter (matchesGlobExt ".nii.gz")

/-- Lines 123-126: raise if the candidate list is empty, otherwise select its
first element. -/
def resolvePrediction (outputFiles : List RelPath) : Except String RelPath :=
  match findPredictionFiles outputFiles with
  | [] => .error "No prediction file found in output directory"
  | p :: _ => .ok p

/-- Whether some file anywhere in the output tree (any depth) has one of the
two accepted extensions.  This is the claim's notion of a match existing
"anywhere in the tree"; used to exhibit the divergence from the code's
non-recursive scan. -/
def hasMatchingFileInTree (outputFiles : List RelPath) : Bool :=
  outputFiles.any (fun p =>
    match p.getLast? with
    | some name => strEndsWith name ".mha" || strEndsWith name ".nii.gz"
    | none => false)

/- ------------------------------------------------------------------
   Statistics (inference.py lines 133-139)

   np.mean over an N-element array is (sum / N); np.max raises ValueError on
   a zero-size array ("zero-size array to reduction operation maximum which
   has no identity"); np.sum(pred_array > 0.5) counts voxels strictly above
   0.5; pred_array.size is the element count.
   ------------------------------------------------------------------ -/

/-- np.max of a flat array, `none` on a zero-size array. -/
def npMax : List ℚ → Option ℚ
  | [] => none
  | x :: xs =>
    some (match npMax xs with
      | none => x
      | some m => max x m)

/-- The statistics record of lines 134-139. -/
structure Stats where
  mean_probability : ℚ
  max_probability : ℚ
  positive_voxels : ℕ
  total_voxels : ℕ
deriving DecidableEq, Repr

/-- Embedding of the statistics computation: raises (ValueError from np.max)
on a zero-size array, otherwise returns the four aggregates. -/
def summarize (pred : Volume) : Except String Stats :=
  match npMax pred with
  | none => .error "zero-size array to reduction operation maximum which has no identity"
  | some m =>
    .ok { mean_probability := pred.sum / pred.length
          max_probability := m
          positive_voxels := pred.countP (fun x => decide ((1 : ℚ)/2 < x))
          total_voxels := pred.length }

/- ------------------------------------------------------------------
   The pipeline (run_picai_inference, lines 47-148)
   ------------------------------------------------------------------ -/

/-- The result bundle returned on success (lines 141-148); its fields are
exactly the keys of the returned dictionary, with `statistics` exactly the
keys of the stats dictionary. -/
structure PipelineResult where
  status : String
  prediction_path : String
  t2w_path : String
  adc_path : String
  hbv_path : String
  statistics : Stats
deriving DecidableEq, Repr

/-- `str(output_path / relpath)` for a file found under the output dir. -/
def outputFilePathStr (output_dir : String) (p : RelPath) : String :=
  output_dir ++ "/output/" ++ String.intercalate "/" p

/-- Environment of one pipeline call: outcome of the Docker version query,
behaviour of `sitk.ReadImage` on source paths, the container process
behaviours available (consumed front-first), the listing of the output tree
after execution, and the content read back from an output file. -/
structure Env where
  versionQuery : QueryOutcome
  readImage : String → Option Volume
  procs : List Proc
  outputFiles : List RelPath
  readVolume : RelPath → Option Volume

/-- Embedding of `run_picai_inference`: availability check, staging, one
container run, output resolution, prediction load, statistics, result
bundle.  `.error` is any exception propagating out of the function. -/
def run_picai_inference (env : Env)
    (t2w_path adc_path hbv_path output_dir : String) :
    Except String PipelineResult :=
  match check_docker_available env.versionQuery with
  | .error e => .error e
  | .ok false => .error "Docker is not available. Please install Docker."
  | .ok true =>
    match stageInputs env.readImage t2w_path adc_path hbv_path output_dir with
    | .error e => .error e
    | .ok _ =>
      match (runDockerWithTrace env.procs).1 with
      | .error e => .error e
      | .ok _ =>
        match resolvePrediction env.outputFiles with
        | .error e => .error e
        | .ok predPath =>
          match env.readVolume predPath with
          | none => .error ("Unable to read image: " ++ outputFilePathStr output_dir predPath)
          | some vol =>
            match summarize vol with
            | .error e => .error e
            | .ok stats =>
              .ok { status := "success"
                    prediction_path := outputFilePathStr output_dir predPath
                    t2w_path := inputFilePath output_dir "t2w"
                    adc_path := inputFilePath output_dir "adc"
                    hbv_path := inputFilePath output_dir "hbv"
                    statistics := stats }

end PicaiInterface

namespace PicaiInterface

/- ------------------------------------------------------------------
   Concrete data used by witnesses
   ------------------------------------------------------------------ -/

/-- A concrete environment in which every step of the pipeline succeeds. -/
def demoEnv : Env :=
  { versionQuery := .completed 0
    readImage := fun _ => some [1]
    procs := [⟨10, 0, "", ""⟩]
    outputFiles := [["prediction.mha"]]
    readVolume := fun _ => some [3/5] }

/-- The result bundle the pipeline produces in `demoEnv` with workspace "w". -/
def demoResult : PipelineResult :=
  { status := "success"
    prediction_path := "w/output/prediction.mha"
    t2w_path := inputFilePath "w" "t2w"
    adc_path := inputFilePath "w" "adc"
    hbv_path := inputFilePath "w" "hbv"
    statistics := ⟨3/5, 3/5, 1, 1⟩ }

/-- The statistics of the two-voxel volume [1/2, 1/2]. -/
def demoStats : Stats := ⟨1/2, 1/2, 0, 2⟩

/- ------------------------------------------------------------------
   Helper lemmas about npMax and constant lists
   ------------------------------------------------------------------ -/

/-- A non-empty list has a maximum. -/
theorem npMax_isSome_of_ne_nil {l : List ℚ} (h : l ≠ []) : ∃ m, npMax l = some m := by
  cases l with
  | nil => exact absurd rfl h
  | cons x xs => exact ⟨_, rfl⟩

/-- The maximum of a list is one of its elements. -/
theorem npMax_mem {l : List ℚ} {m : ℚ} (h : npMax l = some m) : m ∈ l := by
  induction l generalizing m with
  | nil => simp [npMax] at h
  | cons x xs ih =>
    simp only [npMax, Option.some.injEq] at h
    cases hx : npMax xs with
    | none => rw [hx] at h; simp at h; exact h ▸ List.mem_cons_self _ _
    | some m' =>
      rw [hx] at h
      simp only at h
      rcases max_choice x m' with hc | hc <;> rw [← h, hc]
      · exact List.mem_cons_self _ _
      · exact List.mem_cons_of_mem _ (ih hx)

/-- Every element of a list is bounded by its maximum. -/
theorem le_npMax {l : List ℚ} {m : ℚ} (h : npMax l = some m) : ∀ x ∈ l, x ≤ m := by
  induction l generalizing m with
  | nil => intro x hx; simp at hx
  | cons a as ih =>
    simp only [npMax, Option.some.injEq] at h
    intro x hx
    rcases List.mem_cons.mp hx with rfl | hxs
    · cases ha : npMax as with
      | none => rw [ha] at h; simp at h; exact h.le
      | some m' => rw [ha] at h; simp only at h; rw [← h]; exact le_max_left _ _
    · cases ha : npMax as with
      | none =>
        cases as with
        | nil => simp at hxs
        | cons b bs => simp [npMax] at ha
      | some m' =>
        have hle := ih ha x hxs
        rw [ha] at h
        simp only at h
        rw [← h]
        exact hle.trans (le_max_right _ _)

/-- The maximum of a non-empty constant list is that constant. -/
theorem npMax_const {l : List ℚ} {c : ℚ} (hne : l ≠ []) (hc : ∀ x ∈ l, x = c) :
    npMax l = some c := by
  induction l with
  | nil => exact absurd rfl hne
  | cons a as ih =>
    have ha : a = c := hc a (List.mem_cons_self _ _)
    cases as with
    | nil => simp [npMax, ha]
    | cons b bs =>
      have h2 : npMax (b :: bs) = some c :=
        ih (by simp) (fun x hx => hc x (List.mem_cons_of_mem _ hx))
      simp only [npMax, Option.some.injEq] at h2 ⊢
      rw [h2, ha, max_self]

/-- The sum of a constant list is its length times the constant. -/
theorem sum_const {l : List ℚ} {c : ℚ} (hc : ∀ x ∈ l, x = c) :
    l.sum = (l.length : ℚ) * c := by
  induction l with
  | nil => simp
  | cons a as ih =>
    have h2 := ih (fun x hx => hc x (List.mem_cons_of_mem _ hx))
    have ha : a = c := hc a (List.mem_cons_self _ _)
    simp only [List.sum_cons, List.length_cons, ha, h2]
    push_cast
    ring

end PicaiInterface

namespace PicaiInterface

/- ------------------------------------------------------------------
   Claim theorems
   ------------------------------------------------------------------ -/

/-- C1: the claim says the output-resolution step scans the output tree —
including `/output/images/<known-subdirectory>/`, where the model writes its
result — and fails with OutputNotFoundError if and only if no matching file
exists anywhere in the tree.  The code's `glob("*.mha")` / `glob("*.nii.gz")`
is non-recursive, so with the prediction at its documented location
`images/cspca-detection-map/cspca_detection_map.mha` (a matching file in the
tree) resolution nevertheless fails: the code contradicts its own
pre-creation of that subdirectory for the container's output. -/
theorem C1_output_scan_misses_subdirectory :
    hasMatchingFileInTree [["images", "cspca-detection-map", "cspca_detection_map.mha"]] = true ∧
    resolvePrediction [["images", "cspca-detection-map", "cspca_detection_map.mha"]] =
      .error "No prediction file found in output directory" := by
  constructor
  · decide
  · rfl

/-- C4: the container-execution step performs exactly one container
invocation per call (consuming exactly one process behaviour from the
environment, with no retry whatever the outcome), the blocking wait is
bounded by the hardcoded 300-second timeout, and a process exceeding the
bound is reported as timed out. -/
theorem C4_single_invocation_bounded_timeout :
    docker_timeout_seconds = 300 ∧
    (∀ (p : Proc) (rest : List Proc), runDockerWithTrace (p :: rest) = (runDocker p, rest)) ∧
    (∀ p : Proc, docker_timeout_seconds < p.duration →
      runDocker p = .error "Docker inference timed out after 5 minutes") := by
  refine ⟨rfl, fun p rest => rfl, fun p hp => ?_⟩
  simp [runDocker, subprocessRun, hp, tryBody, handleExc]

/-- Witness for C4 at a process that runs for 301 seconds. -/
theorem C4_single_invocation_bounded_timeout_witness :
    runDocker ⟨301, 0, "", ""⟩ = .error "Docker inference timed out after 5 minutes" :=
  C4_single_invocation_bounded_timeout.2.2 ⟨301, 0, "", ""⟩ (by decide)

/-- C6 counterexample: on an invocation error that is neither a non-zero exit
nor a missing executable (e.g. a PermissionError raised by subprocess.run),
the probe does NOT return false: the exception propagates, because the code
catches only (CalledProcessError, FileNotFoundError).  This refutes "returns
false on ... any other invocation error — never raises". -/
theorem C6_probe_raises_on_other_error :
    check_docker_available (.otherError "PermissionError: Permission denied") =
      .error "PermissionError: Permission denied" := rfl

/-- C6 (amended): the probe returns true exactly when the version query exits
with status zero, returns false (without raising) on a non-zero exit or a
missing executable, and any other invocation error propagates as an
exception. -/
theorem C6_probe_classification (q : QueryOutcome) :
    (check_docker_available q = .ok true ↔ q = .completed 0) ∧
    (∀ c : Int, c ≠ 0 → check_docker_available (.completed c) = .ok false) ∧
    check_docker_available .fileNotFound = .ok false ∧
    (∀ msg : String, check_docker_available (.otherError msg) = .error msg) := by
  refine ⟨?_, fun c hc => by simp [check_docker_available, hc], rfl, fun msg => rfl⟩
  cases q with
  | completed c =>
    by_cases hc : c = 0 <;> simp [check_docker_available, hc]
  | fileNotFound => simp [check_docker_available]
  | otherError msg => simp [check_docker_available]

/-- Witness for C6 (amended): a version query exiting with status 1 yields
false. -/
theorem C6_probe_classification_witness :
    check_docker_available (.completed 1) = .ok false :=
  (C6_probe_classification (.completed 1)).2.1 1 (by decide)

/-- C7 counterexample: the statistics computation is not total over every
finite array — on the zero-size array, np.max raises ValueError, so the step
errors instead of producing a result. -/
theorem C7_summarize_errors_on_empty :
    summarize ([] : Volume) =
      .error "zero-size array to reduction operation maximum which has no identity" := rfl

/-- C7 (amended): the statistics computation produces a result without error
on every NON-EMPTY finite array, including degenerate volumes (all-zero,
all-above-threshold), with no special-casing. -/
theorem C7_summarize_total_on_nonempty (pred : Volume) (hne : pred ≠ []) :
    ∃ s, summarize pred = .ok s := by
  obtain ⟨m, hm⟩ := npMax_isSome_of_ne_nil hne
  refine ⟨⟨pred.sum / pred.length, m,
    pred.countP (fun x => decide ((1 : ℚ)/2 < x)), pred.length⟩, ?_⟩
  simp [summarize, hm]

/-- Witness for C7 (amended) on the degenerate all-zero volume [0]. -/
theorem C7_summarize_total_on_nonempty_witness :
    ∃ s, summarize [(0 : ℚ)] = .ok s :=
  C7_summarize_total_on_nonempty [(0 : ℚ)] (by simp)

/-- C10: when the container exits non-zero (within the timeout), the
RuntimeError("Docker inference failed: " + stderr) raised in the try body is
caught by the generic `except Exception` handler and re-raised wrapped a
second time, so the surfaced error is
"Error running Docker: Docker inference failed: <stderr>". -/
theorem C10_nonzero_exit_double_wrapped (p : Proc)
    (hd : p.duration ≤ docker_timeout_seconds) (he : p.exitCode ≠ 0) :
    tryBody (subprocessRun docker_timeout_seconds p) =
      .error (.runtimeError ("Docker inference failed: " ++ p.stderr)) ∧
    runDocker p =
      .error ("Error running Docker: " ++ ("Docker inference failed: " ++ p.stderr)) := by
  have h1 : subprocessRun docker_timeout_seconds p =
      .completed p.exitCode p.stdout p.stderr := by
    simp [subprocessRun, Nat.not_lt.mpr hd]
  constructor
  · simp [h1, tryBody, he]
  · simp [runDocker, h1, tryBody, he, handleExc, excStr]

/-- Witness for C10 at a container that exits 1 with stderr "boom" after
10 seconds. -/
theorem C10_nonzero_exit_double_wrapped_witness :
    tryBody (subprocessRun docker_timeout_seconds ⟨10, 1, "", "boom"⟩) =
      .error (.runtimeError ("Docker inference failed: " ++ "boom")) ∧
    runDocker ⟨10, 1, "", "boom"⟩ =
      .error ("Error running Docker: " ++ ("Docker inference failed: " ++ "boom")) :=
  C10_nonzero_exit_double_wrapped ⟨10, 1, "", "boom"⟩ (by decide) (by decide)

end PicaiInterface

namespace PicaiInterface

/-- C2: for every non-empty prediction volume, the statistics step returns
exactly the arithmetic mean of all voxel values, the maximum voxel value (an
element of the volume bounding every voxel), the count of voxels strictly
above 0.5, and the voxel count; on a volume where every voxel equals 0.6 it
yields mean_probability = 0.6, max_probability = 0.6, and
positive_voxels = total_voxels. -/
theorem C2_summarize_exact (pred : Volume) (hne : pred ≠ []) :
    (∃ s, summarize pred = .ok s ∧
      s.mean_probability = pred.sum / pred.length ∧
      s.max_probability ∈ pred ∧ (∀ x ∈ pred, x ≤ s.max_probability) ∧
      s.positive_voxels = pred.countP (fun x => decide ((1 : ℚ)/2 < x)) ∧
      s.total_voxels = pred.length) ∧
    ((∀ x ∈ pred, x = 3/5) →
      summarize pred = .ok ⟨3/5, 3/5, pred.length, pred.length⟩) := by
  obtain ⟨m, hm⟩ := npMax_isSome_of_ne_nil hne
  constructor
  · refine ⟨⟨pred.sum / pred.length, m,
      pred.countP (fun x => decide ((1 : ℚ)/2 < x)), pred.length⟩,
      ?_, rfl, npMax_mem hm, le_npMax hm, rfl, rfl⟩
    simp [summarize, hm]
  · intro hc
    have hmax : npMax pred = some (3/5) := npMax_const hne hc
    have hsum : pred.sum = (pred.length : ℚ) * (3/5) := sum_const hc
    have hlen : (pred.length : ℚ) ≠ 0 :=
      Nat.cast_ne_zero.mpr (List.length_pos.mpr hne).ne'
    have hmean : pred.sum / (pred.length : ℚ) = 3/5 := by
      rw [hsum]
      exact mul_div_cancel_left₀ _ hlen
    have hcount : pred.countP (fun x => decide ((1 : ℚ)/2 < x)) = pred.length := by
      rw [List.countP_eq_length]
      intro a ha
      rw [hc a ha]
      norm_num
    simp only [summarize, hmax]
    rw [hmean, hcount]

/-- Witness for C2 on the two-voxel constant-0.6 volume. -/
theorem C2_summarize_exact_witness :
    summarize [(3 : ℚ)/5, 3/5] = .ok ⟨3/5, 3/5, [(3 : ℚ)/5, 3/5].length, [(3 : ℚ)/5, 3/5].length⟩ :=
  (C2_summarize_exact [(3 : ℚ)/5, 3/5] (by simp)).2 (by
    intro x hx
    rcases List.mem_cons.mp hx with rfl | hx
    · rfl
    · rcases List.mem_singleton.mp hx with rfl
      rfl)

/-- C3: the input-staging step either stages all three modalities (t2w, adc,
hbv) as files named `<case_id>_<modality>.mha` at deterministic paths under
the workspace's input/images directory and produces the manifest of exactly
those three paths, or fails before producing any manifest — no partial
manifest is ever returned. -/
theorem C3_staging_all_or_nothing (readImage : String → Option Volume)
    (t2w_path adc_path hbv_path output_dir : String) :
    (∃ v1 v2 v3, readImage t2w_path = some v1 ∧ readImage adc_path = some v2 ∧
      readImage hbv_path = some v3 ∧
      stageInputs readImage t2w_path adc_path hbv_path output_dir =
        .ok [(inputFilePath output_dir "t2w", v1),
             (inputFilePath output_dir "adc", v2),
             (inputFilePath output_dir "hbv", v3)]) ∨
    ((readImage t2w_path = none ∨ readImage adc_path = none ∨ readImage hbv_path = none) ∧
      ∃ e, stageInputs readImage t2w_path adc_path hbv_path output_dir = .error e) := by
  cases h1 : readImage t2w_path with
  | none =>
    exact .inr ⟨.inl rfl, "Unable to read image: " ++ t2w_path,
      by simp [stageInputs, stageLoop, h1]⟩
  | some v1 =>
    cases h2 : readImage adc_path with
    | none =>
      exact .inr ⟨.inr (.inl rfl), "Unable to read image: " ++ adc_path,
        by simp [stageInputs, stageLoop, h1, h2]⟩
    | some v2 =>
      cases h3 : readImage hbv_path with
      | none =>
        exact .inr ⟨.inr (.inr rfl), "Unable to read image: " ++ hbv_path,
          by simp [stageInputs, stageLoop, h1, h2, h3]⟩
      | some v3 =>
        exact .inl ⟨v1, v2, v3, rfl, rfl, rfl,
          by simp [stageInputs, stageLoop, h1, h2, h3]⟩

/-- C8: whenever the output directory contains at least one direct child
matched by the `.mha` glob, the resolved prediction file is an `.mha`
candidate, even if `.nii.gz` candidates also exist; the candidate list places
every `.mha` match before every `.nii.gz` match. -/
theorem C8_mha_selected_first (files : List RelPath)
    (h : ∃ p ∈ files, matchesGlobExt ".mha" p = true) :
    findPredictionFiles files =
      files.filter (matchesGlobExt ".mha") ++ files.filter (matchesGlobExt ".nii.gz") ∧
    ∃ p, resolvePrediction files = .ok p ∧ matchesGlobExt ".mha" p = true := by
  refine ⟨rfl, ?_⟩
  obtain ⟨p, hp, hmp⟩ := h
  have hmem : p ∈ files.filter (matchesGlobExt ".mha") := List.mem_filter.mpr ⟨hp, hmp⟩
  cases hf : files.filter (matchesGlobExt ".mha") with
  | nil => rw [hf] at hmem; cases hmem
  | cons q qs =>
    refine ⟨q, ?_, ?_⟩
    · simp [resolvePrediction, findPredictionFiles, hf]
    · have hq : q ∈ files.filter (matchesGlobExt ".mha") := by
        rw [hf]; exact List.mem_cons_self _ _
      exact (List.mem_filter.mp hq).2

/-- Witness for C8: with a `.nii.gz` file listed before a `.mha` file, the
resolver still selects the `.mha` file. -/
theorem C8_mha_selected_first_witness :
    ∃ p, resolvePrediction [["a.nii.gz"], ["b.mha"]] = .ok p ∧
      matchesGlobExt ".mha" p = true :=
  (C8_mha_selected_first [["a.nii.gz"], ["b.mha"]] ⟨["b.mha"], by decide, by decide⟩).2

/-- C9: for every non-empty prediction volume, the returned statistics
satisfy 0 ≤ positive_voxels ≤ total_voxels and
mean_probability ≤ max_probability. -/
theorem C9_statistics_bounds (pred : Volume) (s : Stats) (h : summarize pred = .ok s) :
    0 ≤ s.positive_voxels ∧ s.positive_voxels ≤ s.total_voxels ∧
    s.mean_probability ≤ s.max_probability := by
  cases hm : npMax pred with
  | none => simp [summarize, hm] at h
  | some m =>
    simp only [summarize, hm, Except.ok.injEq] at h
    subst h
    refine ⟨Nat.zero_le _, List.countP_le_length _, ?_⟩
    have hne : pred ≠ [] := by
      intro he
      rw [he] at hm
      simp [npMax] at hm
    have hub : ∀ x ∈ pred, x ≤ m := le_npMax hm
    have hsle : pred.sum ≤ pred.length • m := List.sum_le_card_nsmul pred m hub
    rw [nsmul_eq_mul] at hsle
    have hlen0 : (0 : ℚ) < pred.length := by
      exact_mod_cast List.length_pos.mpr hne
    show pred.sum / (pred.length : ℚ) ≤ m
    rw [div_le_iff₀ hlen0, mul_comm]
    exact hsle

/-- Evaluation of the statistics on the two-voxel volume [1/2, 1/2]. -/
theorem summarize_half_pair : summarize [(1 : ℚ)/2, 1/2] = .ok demoStats := by
  have hm : npMax [(1 : ℚ)/2, 1/2] = some (1/2) := by
    simp [npMax]
  simp only [summarize, hm, demoStats]
  norm_num [List.countP_cons, List.countP_nil]

/-- Witness for C9 on the volume [1/2, 1/2]. -/
theorem C9_statistics_bounds_witness :
    0 ≤ demoStats.positive_voxels ∧ demoStats.positive_voxels ≤ demoStats.total_voxels ∧
    demoStats.mean_probability ≤ demoStats.max_probability :=
  C9_statistics_bounds [(1 : ℚ)/2, 1/2] demoStats summarize_half_pair

end PicaiInterface

namespace PicaiInterface

/-- C5: on every successful pipeline run, the result bundle (whose fields are
exactly status, prediction_path, t2w_path, adc_path, hbv_path and statistics,
with statistics exactly the four aggregate fields, by the definitions of
`PipelineResult` and `Stats`) carries status "success", the three staged
input paths, the resolved prediction artifact's path, and the statistics of
the prediction volume. -/
theorem C5_result_bundle (env : Env) (t2w_path adc_path hbv_path output_dir : String)
    (r : PipelineResult)
    (h : run_picai_inference env t2w_path adc_path hbv_path output_dir = .ok r) :
    r.status = "success" ∧
    r.t2w_path = inputFilePath output_dir "t2w" ∧
    r.adc_path = inputFilePath output_dir "adc" ∧
    r.hbv_path = inputFilePath output_dir "hbv" ∧
    ∃ p vol, resolvePrediction env.outputFiles = .ok p ∧
      r.prediction_path = outputFilePathStr output_dir p ∧
      env.readVolume p = some vol ∧ summarize vol = .ok r.statistics := by
  unfold run_picai_inference at h
  cases hq : check_docker_available env.versionQuery with
  | error e => rw [hq] at h; simp at h
  | ok b =>
    rw [hq] at h
    cases b with
    | false => simp at h
    | true =>
      simp only at h
      cases hs : stageInputs env.readImage t2w_path adc_path hbv_path output_dir with
      | error e => rw [hs] at h; simp at h
      | ok staged =>
        rw [hs] at h
        simp only at h
        cases hd : (runDockerWithTrace env.procs).1 with
        | error e => rw [hd] at h; simp at h
        | ok u =>
          rw [hd] at h
          simp only at h
          cases hr : resolvePrediction env.outputFiles with
          | error e => rw [hr] at h; simp at h
          | ok predPath =>
            rw [hr] at h
            simp only at h
            cases hv : env.readVolume predPath with
            | none => rw [hv] at h; simp at h
            | some vol =>
              rw [hv] at h
              simp only at h
              cases hsum : summarize vol with
              | error e => rw [hsum] at h; simp at h
              | ok stats =>
                rw [hsum] at h
                simp only [Except.ok.injEq] at h
                subst h
                exact ⟨rfl, rfl, rfl, rfl, predPath, vol, rfl, rfl, hv, hsum⟩

/-- Evaluation of the whole pipeline in the all-success environment. -/
theorem demo_run : run_picai_inference demoEnv "a" "b" "c" "w" = .ok demoResult := by
  have hm : npMax [(3 : ℚ)/5] = some (3/5) := rfl
  have hsum : summarize [(3 : ℚ)/5] = .ok ⟨3/5, 3/5, 1, 1⟩ := by
    simp only [summarize, hm]
    norm_num [List.countP_cons, List.countP_nil]
  have h1 : check_docker_available demoEnv.versionQuery = .ok true := rfl
  have h2 : stageInputs demoEnv.readImage "a" "b" "c" "w" =
      .ok [(inputFilePath "w" "t2w", [1]), (inputFilePath "w" "adc", [1]),
           (inputFilePath "w" "hbv", [1])] := rfl
  have h3 : (runDockerWithTrace demoEnv.procs).1 = .ok () := rfl
  have h4 : resolvePrediction demoEnv.outputFiles = .ok ["prediction.mha"] := rfl
  have h5 : demoEnv.readVolume ["prediction.mha"] = some [(3 : ℚ)/5] := rfl
  unfold run_picai_inference
  rw [h1]
  simp only
  rw [h2]
  simp only
  rw [h3]
  simp only
  rw [h4]
  simp only
  rw [h5]
  simp only
  rw [hsum]
  simp only
  rfl

/-- Witness for C5 in the all-success environment. -/
theorem C5_result_bundle_witness :
    demoResult.status = "success" ∧
    demoResult.t2w_path = inputFilePath "w" "t2w" ∧
    demoResult.adc_path = inputFilePath "w" "adc" ∧
    demoResult.hbv_path = inputFilePath "w" "hbv" ∧
    ∃ p vol, resolvePrediction demoEnv.outputFiles = .ok p ∧
      demoResult.prediction_path = outputFilePathStr "w" p ∧
      demoEnv.readVolume p = some vol ∧ summarize vol = .ok demoResult.statistics :=
  C5_result_bundle demoEnv "a" "b" "c" "w" demoResult demo_run

end PicaiInterface
